import Mathlib

/-!
Shallow embedding of the ingestion engine of the telegram-analysis-service
repository (src/ingest.py, src/store.py, src/tg_client.py, src/models.py).

Timestamps (`datetime`) are modelled as natural numbers (seconds), message
and chat identifiers as in the source (`message_id : Nat`, `chat_id : Int`).
Database writes and analyzer invocations are recorded as an event trace;
the checkpoint row (the only state the engine both reads and writes) is
carried explicitly.  Fallible collaborator calls (store writes, the
analyzer, the fetches) are driven by explicit outcome oracles, one case per
`except` path of the Python code.
-/

namespace TgIngest

/-- models.py `TelegramMessage`: raw Telegram message data. -/
structure TelegramMessage where
  chat_id : Int
  message_id : Nat
  ts_utc : Nat
  from_user_id : Option Int := none
  from_username : Option String := none
  is_forwarded : Bool := false
  forward_from : Option String := none
  text : String := ""
  urls : List String := []
  reply_to_id : Option Nat := none
  edit_date : Option Nat := none
  deriving DecidableEq

/-- models.py `IngestCheckpoint`: checkpoint for message ingestion progress. -/
structure IngestCheckpoint where
  chat_id : Int
  last_message_id : Nat
  last_ts_utc : Nat
  updated_at : Nat
  deriving DecidableEq

/-- models.py `HighWaterMark`: high water mark for backfill boundary. -/
structure HighWaterMark where
  chat_id : Int
  message_id : Nat
  ts_utc : Nat
  created_at : Nat
  deriving DecidableEq

/-- models.py `IngestionStats`: statistics for ingestion monitoring.
`flood_wait_seconds_total` is a float in the source; it is only ever
initialised to `0.0` and compared/displayed, so `Nat` is a faithful model. -/
structure IngestionStats where
  ingested_messages_total : Nat := 0
  analyzed_messages_total : Nat := 0
  overlap_rescans_total : Nat := 0
  flood_wait_seconds_total : Nat := 0
  ingest_lag_seconds : Nat := 0
  last_updated : Nat := 0
  deriving DecidableEq

/-- The engine state the claims are about: the stored checkpoint row for the
target chat (store.py table `ingest_checkpoint`, one row per chat) and the
in-memory `IngestionStats` of the engine. -/
structure EngineState where
  checkpoint : Option IngestCheckpoint
  stats : IngestionStats
  deriving DecidableEq

/-- Observable actions of the engine: fetches issued to the source
(`fetch (min_id) (max_id)` with `min_id` exclusive, `max_id` inclusive),
store upserts, analyzer invocations, checkpoint writes, and sleeps. -/
inductive Event where
  | fetch (minId maxId : Nat)
  | upsertMessage (message_id : Nat)
  | analyze (message_id : Nat)
  | upsertAnalysis (message_id : Nat)
  | updateCheckpointEv (last_message_id : Nat)
  | sleepEv (seconds : Nat)
  deriving DecidableEq

/-- store.py `DatabaseStore.update_checkpoint` (lines 280-301): both the
PostgreSQL `ON CONFLICT (chat_id) DO UPDATE SET last_message_id = EXCLUDED...`
and the SQLite `INSERT OR REPLACE` overwrite the stored row unconditionally
with the given checkpoint; there is no monotonicity guard. -/
def update_checkpoint (_current : Option IngestCheckpoint)
    (checkpoint : IngestCheckpoint) : Option IngestCheckpoint :=
  some checkpoint

/-- Outcome oracle for the per-message body of
`IngestionEngine._process_message_batch` (ingest.py lines 146-161): which, if
any, of the awaited calls inside the per-message `try` raises. -/
inductive MsgOutcome where
  | ok
  | storeFail
  | analyzeFail
  | analysisUpsertFail
  deriving DecidableEq

/-- One iteration of the `for message in messages` loop of
`_process_message_batch`: upsert the message, bump `ingested_messages_total`,
analyze, upsert the analysis, bump `analyzed_messages_total`, count it as
processed; any raise is caught by the per-message `except` and only skips the
remainder of that message's body. -/
def processOne (omg : Nat → MsgOutcome) (s : EngineState) (m : TelegramMessage) :
    EngineState × List Event × Nat :=
  match omg m.message_id with
  | .storeFail => (s, [], 0)
  | .analyzeFail =>
      ({ s with stats := { s.stats with
            ingested_messages_total := s.stats.ingested_messages_total + 1 } },
       [.upsertMessage m.message_id], 0)
  | .analysisUpsertFail =>
      ({ s with stats := { s.stats with
            ingested_messages_total := s.stats.ingested_messages_total + 1 } },
       [.upsertMessage m.message_id, .analyze m.message_id], 0)
  | .ok =>
      ({ s with stats := { s.stats with
            ingested_messages_total := s.stats.ingested_messages_total + 1,
            analyzed_messages_total := s.stats.analyzed_messages_total + 1 } },
       [.upsertMessage m.message_id, .analyze m.message_id,
        .upsertAnalysis m.message_id], 1)

/-- ingest.py `IngestionEngine._process_message_batch` (lines 142-162):
process a batch of messages (store + analyze), returning the updated state,
the event trace, and `processed_count`. -/
def process_message_batch (omg : Nat → MsgOutcome) :
    EngineState → List TelegramMessage → EngineState × List Event × Nat
  | s, [] => (s, [], 0)
  | s, m :: rest =>
      let one := processOne omg s m
      let more := process_message_batch omg one.1 rest
      (more.1, one.2.1 ++ more.2.1, one.2.2 + more.2.2)

/-- Outcome oracle for `IngestionEngine._handle_new_message` (ingest.py lines
164-187): which, if any, of the awaited calls inside its single `try` raises.
The two stats increments sit after everything else, so any raise skips both. -/
inductive NewMsgOutcome where
  | ok
  | storeFail
  | analyzeFail
  | analysisUpsertFail
  | checkpointFail
  deriving DecidableEq

/-- ingest.py `IngestionEngine._handle_new_message`: store and analyze the
message, then build a checkpoint carrying this message's id and timestamp and
persist it via `update_checkpoint` — unconditionally, with no comparison
against the currently stored checkpoint — then bump both counters.  `now`
models `datetime.utcnow()`. -/
def handle_new_message (omg : NewMsgOutcome) (chat_id : Int) (now : Nat)
    (s : EngineState) (m : TelegramMessage) : EngineState × List Event :=
  match omg with
  | .storeFail => (s, [])
  | .analyzeFail => (s, [.upsertMessage m.message_id])
  | .analysisUpsertFail =>
      (s, [.upsertMessage m.message_id, .analyze m.message_id])
  | .checkpointFail =>
      (s, [.upsertMessage m.message_id, .analyze m.message_id,
           .upsertAnalysis m.message_id])
  | .ok =>
      let checkpoint : IngestCheckpoint :=
        { chat_id := chat_id, last_message_id := m.message_id,
          last_ts_utc := m.ts_utc, updated_at := now }
      ({ checkpoint := update_checkpoint s.checkpoint checkpoint,
         stats := { s.stats with
            ingested_messages_total := s.stats.ingested_messages_total + 1,
            analyzed_messages_total := s.stats.analyzed_messages_total + 1 } },
       [.upsertMessage m.message_id, .analyze m.message_id,
        .upsertAnalysis m.message_id, .updateCheckpointEv m.message_id])

/-- Outcome oracle for `IngestionEngine._handle_message_edit` (ingest.py lines
189-202): which, if any, of its awaited calls raises. -/
inductive EditOutcome where
  | ok
  | storeFail
  | analyzeFail
  | analysisUpsertFail
  deriving DecidableEq

/-- ingest.py `IngestionEngine._handle_message_edit`: upsert the edited
message and re-run analyze/upsert; it touches neither the checkpoint nor the
stats counters on any path. -/
def handle_message_edit (omg : EditOutcome) (s : EngineState)
    (m : TelegramMessage) : EngineState × List Event :=
  match omg with
  | .storeFail => (s, [])
  | .analyzeFail => (s, [.upsertMessage m.message_id])
  | .analysisUpsertFail =>
      (s, [.upsertMessage m.message_id, .analyze m.message_id])
  | .ok =>
      (s, [.upsertMessage m.message_id, .analyze m.message_id,
           .upsertAnalysis m.message_id])

/-- Per-backfill-fetch behaviour of the source, as seen by the backfill loop:
`tg_client.fetch_messages_batch` either returns a (possibly empty) list of
messages — flood waits having been absorbed inside the wrapper, see
`fetch_messages_batch` below — or raises (`exn`, caught by the loop's
`except`). -/
inductive FetchOutcome where
  | ok (messages : List TelegramMessage)
  | exn

/-- Python's `max(messages, key=lambda m: m.message_id)` (ingest.py line
118): the first element of maximal `message_id`. -/
def maxByMessageId (m : TelegramMessage) :
    List TelegramMessage → TelegramMessage
  | [] => m
  | x :: xs => maxByMessageId (if x.message_id > m.message_id then x else m) xs

/-- The body of the `while` loop of `IngestionEngine._perform_backfill`
(ingest.py lines 96-138), executed with `current_id ≤ hwm_id`:
compute `max_id = min(current_id + batch_size - 1, hwm_id)`, fetch the range
`(current_id - 1, max_id]`; an empty batch advances `current_id = max_id + 1`
without touching the checkpoint; a non-empty batch is processed via
`_process_message_batch`, the checkpoint is overwritten with the maximal
observed `message_id`, and `current_id` becomes that maximum plus one; a
raise out of the fetch is caught by the loop's `except`, which skips the
range (`current_id = max_id + 1`) after a 5-second pause.  Returns the new
state, the new `current_id`, and the events of this iteration. -/
def backfillStep (src : Nat → Nat → FetchOutcome) (omg : Nat → MsgOutcome)
    (chat_id : Int) (hwm_id batch_size now : Nat)
    (s : EngineState) (current_id : Nat) : EngineState × Nat × List Event :=
  let max_id := min (current_id + batch_size - 1) hwm_id
  match src (current_id - 1) max_id with
  | .exn => (s, max_id + 1, [.fetch (current_id - 1) max_id, .sleepEv 5])
  | .ok [] => (s, max_id + 1, [.fetch (current_id - 1) max_id])
  | .ok (m :: rest) =>
      let pr := process_message_batch omg s (m :: rest)
      let last_message := maxByMessageId m rest
      let checkpoint : IngestCheckpoint :=
        { chat_id := chat_id, last_message_id := last_message.message_id,
          last_ts_utc := last_message.ts_utc, updated_at := now }
      ({ pr.1 with
           checkpoint := update_checkpoint pr.1.checkpoint checkpoint },
       last_message.message_id + 1,
       .fetch (current_id - 1) max_id ::
         (pr.2.1 ++ [.updateCheckpointEv last_message.message_id]))

/-- Result of running the backfill loop: final state, final `current_id`, the
concatenated event trace, and whether the loop reached its normal exit
condition `current_id > hwm_id` (`completed = false` only when the modelling
fuel ran out first). -/
structure BackfillResult where
  state : EngineState
  current_id : Nat
  events : List Event
  completed : Bool
  deriving DecidableEq

/-- The `while current_id <= high_water_mark.message_id` loop of
`_perform_backfill` (`self._running` is modelled as staying true), with an
explicit fuel bound since the Python loop is not structurally terminating. -/
def backfillLoop (src : Nat → Nat → FetchOutcome) (omg : Nat → MsgOutcome)
    (chat_id : Int) (hwm_id batch_size now : Nat) :
    Nat → EngineState → Nat → BackfillResult
  | 0, s, current_id =>
      { state := s, current_id := current_id, events := [],
        completed := decide (hwm_id < current_id) }
  | fuel + 1, s, current_id =>
      if current_id ≤ hwm_id then
        let st := backfillStep src omg chat_id hwm_id batch_size now s
          current_id
        let rest := backfillLoop src omg chat_id hwm_id batch_size now fuel
          st.1 st.2.1
        { rest with events := st.2.2 ++ rest.events }
      else
        { state := s, current_id := current_id, events := [],
          completed := true }

/-- ingest.py `IngestionEngine._perform_backfill` (lines 75-140): read the
checkpoint, start from `last_message_id + 1` (or `1` with no checkpoint),
return immediately when already past the high water mark, else run the
loop. -/
def perform_backfill (src : Nat → Nat → FetchOutcome) (omg : Nat → MsgOutcome)
    (chat_id : Int) (hwm_id batch_size now fuel : Nat)
    (s : EngineState) : BackfillResult :=
  let start_message_id :=
    match s.checkpoint with
    | some checkpoint => checkpoint.last_message_id + 1
    | none => 1
  if hwm_id < start_message_id then
    { state := s, current_id := start_message_id, events := [],
      completed := true }
  else
    backfillLoop src omg chat_id hwm_id batch_size now fuel s
      start_message_id

/-- One underlying response of the Telegram source to `iter_messages` inside
`tg_client.fetch_messages_batch`: a successful batch, a `FloodWaitError`
carrying the suggested wait in seconds, or some other error. -/
inductive SourceResp where
  | floodWait (seconds : Nat)
  | batch (messages : List TelegramMessage)
  | err

/-- tg_client.py `TelegramClientWrapper.fetch_messages_batch` (lines 74-118)
for a fixed requested range, run against a script of source responses (one
per underlying attempt): each attempt first sleeps `delay`
(`self._rate_limit_delay`); on `FloodWaitError` it sleeps the suggested
`e.seconds` and retries the same range recursively; any other error
propagates (`none`).  Returns the fetched batch, if any, and the total
seconds slept.  Note it has no access to the engine's `IngestionStats`. -/
def fetch_messages_batch (delay : Nat) :
    List SourceResp → Option (List TelegramMessage) × Nat
  | [] => (none, delay)
  | .batch messages :: _ => (some messages, delay)
  | .err :: _ => (none, delay)
  | .floodWait w :: rest =>
      let r := fetch_messages_batch delay rest
      (r.1, delay + w + r.2)

/-- tg_client.py `TelegramClientWrapper.fetch_messages_in_range` (lines
120-165), run over the abstract stream of messages the client iterator
yields for these parameters: stop at the first message dated before
`start_date` (the `break`), keep those dated at most `end_date` (note: the
end bound is *inclusive*, `msg_date <= end_date`), skip the rest. -/
def fetch_messages_in_range (start_date end_date : Nat) :
    List TelegramMessage → List TelegramMessage
  | [] => []
  | m :: rest =>
      if m.ts_utc < start_date then []
      else if m.ts_utc ≤ end_date then
        m :: fetch_messages_in_range start_date end_date rest
      else fetch_messages_in_range start_date end_date rest

/-- ingest.py `IngestionEngine.manual_rescan_range` (lines 271-285): fetch
the messages the client yields for the requested date range and push them
through `_process_message_batch`; the checkpoint is never touched. -/
def manual_rescan_range (omg : Nat → MsgOutcome)
    (stream : List TelegramMessage) (start_date end_date : Nat)
    (s : EngineState) : EngineState × List Event × Nat :=
  process_message_batch omg s
    (fetch_messages_in_range start_date end_date stream)

/-- One engine operation of the kinds claim C9 quantifies over: a batch run
of `_process_message_batch`, one `_handle_new_message` invocation, or one
`_handle_message_edit` invocation, each with its outcome oracle. -/
inductive EngineOp where
  | batchOp (omg : Nat → MsgOutcome) (messages : List TelegramMessage)
  | newMessageOp (omg : NewMsgOutcome) (chat_id : Int) (now : Nat)
      (m : TelegramMessage)
  | editOp (omg : EditOutcome) (m : TelegramMessage)

/-- Apply one engine operation to the engine state. -/
def runOp (s : EngineState) : EngineOp → EngineState
  | .batchOp omg messages => (process_message_batch omg s messages).1
  | .newMessageOp omg chat_id now m =>
      (handle_new_message omg chat_id now s m).1
  | .editOp omg m => (handle_message_edit omg s m).1

/-- Apply a sequence of engine operations. -/
def runOps : EngineState → List EngineOp → EngineState
  | s, [] => s
  | s, op :: rest => runOps (runOp s op) rest

/-- The fetch calls recorded in a trace, as `(min_id exclusive, max_id)`
pairs. -/
def fetchCalls (events : List Event) : List (Nat × Nat) :=
  events.filterMap fun e =>
    match e with
    | .fetch a b => some (a, b)
    | _ => none

/-- The analyzer invocations recorded in a trace, by message id. -/
def analyzeIds (events : List Event) : List Nat :=
  events.filterMap fun e =>
    match e with
    | .analyze i => some i
    | _ => none

/-- The checkpoint writes recorded in a trace, by `last_message_id`. -/
def checkpointWrites (events : List Event) : List Nat :=
  events.filterMap fun e =>
    match e with
    | .updateCheckpointEv i => some i
    | _ => none

/-- The event trace the per-message body of `_process_message_batch` emits
for a single message, as a function of that message's own outcome alone. -/
def perMessageEvents (omg : Nat → MsgOutcome) (m : TelegramMessage) :
    List Event :=
  match omg m.message_id with
  | .storeFail => []
  | .analyzeFail => [.upsertMessage m.message_id]
  | .analysisUpsertFail => [.upsertMessage m.message_id, .analyze m.message_id]
  | .ok => [.upsertMessage m.message_id, .analyze m.message_id,
            .upsertAnalysis m.message_id]

/-- The maximal `message_id` observed in the non-empty batch `m :: rest`
(spec-side characterisation of Python's `max(messages, key=...).id`). -/
def batchMaxId (m : TelegramMessage) (rest : List TelegramMessage) : Nat :=
  (rest.map (·.message_id)).foldl max m.message_id

/-- The maximal `message_id` of a batch, `0` for an empty one. -/
def maxIdOf : List TelegramMessage → Nat
  | [] => 0
  | m :: rest => (maxByMessageId m rest).message_id

/-! ## Concrete inputs used by counterexamples and witnesses -/

/-- A processing oracle under which every collaborator call succeeds. -/
def omgOk : Nat → MsgOutcome := fun _ => .ok

/-- A source whose every fetch returns an empty batch. -/
def srcEmpty : Nat → Nat → FetchOutcome := fun _ _ => .ok []

/-- Engine state with no stored checkpoint and fresh stats. -/
def stateZero : EngineState := { checkpoint := none, stats := {} }

/-- A stored checkpoint at `last_message_id = 10`. -/
def cpTen : IngestCheckpoint :=
  { chat_id := 1, last_message_id := 10, last_ts_utc := 10, updated_at := 0 }

/-- Engine state whose stored checkpoint is `cpTen`. -/
def stateTen : EngineState := { checkpoint := some cpTen, stats := {} }

/-- A live message with id `5`, below the stored checkpoint of `stateTen`. -/
def msgFive : TelegramMessage := { chat_id := 1, message_id := 5, ts_utc := 11 }

/-- A one-message batch delivered after a flood wait. -/
def floodDemoBatch : List TelegramMessage :=
  [{ chat_id := 1, message_id := 51, ts_utc := 100 }]

/-- A stored checkpoint at `last_message_id = 50`. -/
def cpFifty : IngestCheckpoint :=
  { chat_id := 1, last_message_id := 50, last_ts_utc := 90, updated_at := 0 }

/-- Engine state whose stored checkpoint is `cpFifty`. -/
def stateFifty : EngineState := { checkpoint := some cpFifty, stats := {} }

/-- First backfill batch of the C3 scenario: ids 51 and 150 (with a gap). -/
def b1W : List TelegramMessage :=
  [{ chat_id := 1, message_id := 51, ts_utc := 100 },
   { chat_id := 1, message_id := 150, ts_utc := 110 }]

/-- Second backfill batch of the C3 scenario: ids 200 and 237 (with gaps). -/
def b2W : List TelegramMessage :=
  [{ chat_id := 1, message_id := 200, ts_utc := 120 },
   { chat_id := 1, message_id := 237, ts_utc := 130 }]

/-- The C3 scenario source: `(50,150] ↦ b1W`, `(150,237] ↦ b2W`, empty
otherwise. -/
def srcW : Nat → Nat → FetchOutcome := fun a _ =>
  if a = 50 then .ok b1W else if a = 150 then .ok b2W else .ok []

/-- A message with id 51 for the C4 witness. -/
def msg51W : TelegramMessage := { chat_id := 1, message_id := 51, ts_utc := 100 }

/-- A message with id 60 for the C4 witness. -/
def msg60W : TelegramMessage := { chat_id := 1, message_id := 60, ts_utc := 101 }

/-- A source returning the two-message batch `[msg51W, msg60W]`. -/
def srcPair : Nat → Nat → FetchOutcome := fun _ _ => .ok [msg51W, msg60W]

/-- A stored checkpoint at `last_message_id = 100`. -/
def cpHundred : IngestCheckpoint :=
  { chat_id := 1, last_message_id := 100, last_ts_utc := 100, updated_at := 0 }

/-- Engine state whose stored checkpoint is `cpHundred`. -/
def stateHundred : EngineState := { checkpoint := some cpHundred, stats := {} }

/-- A message whose timestamp sits exactly at a re-scan range's end bound. -/
def msgAtEnd : TelegramMessage := { chat_id := 1, message_id := 7, ts_utc := 100 }

/-- A message inside the re-scan window of the C5 witness. -/
def msgIn : TelegramMessage := { chat_id := 1, message_id := 8, ts_utc := 60 }

/-- A message after the re-scan window of the C5 witness. -/
def msgLate : TelegramMessage := { chat_id := 1, message_id := 9, ts_utc := 200 }

/-- A demo operation sequence for the C9 witness: a batch whose only
message fails analysis, then a successful live message. -/
def opsDemo : List EngineOp :=
  [.batchOp (fun _ => .analyzeFail) [msg51W], .newMessageOp .ok 1 5 msg60W]

/-! ## Shared lemmas -/

/-- `processOne` never touches the stored checkpoint. -/
theorem processOne_checkpoint (omg : Nat → MsgOutcome) (s : EngineState)
    (m : TelegramMessage) : (processOne omg s m).1.checkpoint = s.checkpoint := by
  unfold processOne
  cases omg m.message_id <;> rfl

/-- `_process_message_batch` never touches the stored checkpoint. -/
theorem process_message_batch_checkpoint (omg : Nat → MsgOutcome)
    (msgs : List TelegramMessage) :
    ∀ s : EngineState,
      (process_message_batch omg s msgs).1.checkpoint = s.checkpoint := by
  induction msgs with
  | nil => intro s; rfl
  | cons m rest ih =>
      intro s
      simp only [process_message_batch]
      rw [ih, processOne_checkpoint]

/-- The events `processOne` emits for a message are exactly
`perMessageEvents` of that message. -/
theorem processOne_events (omg : Nat → MsgOutcome) (s : EngineState)
    (m : TelegramMessage) : (processOne omg s m).2.1 = perMessageEvents omg m := by
  unfold processOne perMessageEvents
  cases omg m.message_id <;> rfl

/-- The trace of `_process_message_batch` is the concatenation, message by
message, of each message's own `perMessageEvents`. -/
theorem process_message_batch_events (omg : Nat → MsgOutcome)
    (msgs : List TelegramMessage) :
    ∀ s : EngineState,
      (process_message_batch omg s msgs).2.1
        = msgs.flatMap (perMessageEvents omg) := by
  induction msgs with
  | nil => intro s; rfl
  | cons m rest ih =>
      intro s
      simp only [process_message_batch, List.flatMap_cons]
      rw [ih, processOne_events]

/-- `processed_count` counts exactly the messages whose own outcome is
fully successful. -/
theorem process_message_batch_count (omg : Nat → MsgOutcome)
    (msgs : List TelegramMessage) :
    ∀ s : EngineState,
      (process_message_batch omg s msgs).2.2
        = msgs.countP (fun m => decide (omg m.message_id = MsgOutcome.ok)) := by
  induction msgs with
  | nil => intro s; rfl
  | cons m rest ih =>
      intro s
      simp only [process_message_batch, List.countP_cons]
      rw [ih]
      unfold processOne
      cases h : omg m.message_id <;> simp [h] <;> omega

/-- `processOne` preserves `ingested ≥ analyzed` (the analyzed counter is
only bumped together with or after the ingested one). -/
theorem processOne_stats_le (omg : Nat → MsgOutcome) (s : EngineState)
    (m : TelegramMessage)
    (h : s.stats.analyzed_messages_total ≤ s.stats.ingested_messages_total) :
    (processOne omg s m).1.stats.analyzed_messages_total
      ≤ (processOne omg s m).1.stats.ingested_messages_total := by
  unfold processOne
  cases omg m.message_id <;> simp <;> omega

/-- `_process_message_batch` preserves `ingested ≥ analyzed`. -/
theorem process_message_batch_stats_le (omg : Nat → MsgOutcome)
    (msgs : List TelegramMessage) :
    ∀ s : EngineState,
      s.stats.analyzed_messages_total ≤ s.stats.ingested_messages_total →
      (process_message_batch omg s msgs).1.stats.analyzed_messages_total
        ≤ (process_message_batch omg s msgs).1.stats.ingested_messages_total := by
  induction msgs with
  | nil => intro s h; exact h
  | cons m rest ih =>
      intro s h
      simp only [process_message_batch]
      exact ih _ (processOne_stats_le omg s m h)

/-- `_handle_new_message` preserves `ingested ≥ analyzed`: both counters are
bumped together at the end of the `try`, or neither. -/
theorem handle_new_message_stats_le (omg : NewMsgOutcome) (chat_id : Int)
    (now : Nat) (s : EngineState) (m : TelegramMessage)
    (h : s.stats.analyzed_messages_total ≤ s.stats.ingested_messages_total) :
    (handle_new_message omg chat_id now s m).1.stats.analyzed_messages_total
      ≤ (handle_new_message omg chat_id now s m).1.stats.ingested_messages_total := by
  unfold handle_new_message
  cases omg <;> simp <;> omega

/-- `_handle_message_edit` never changes the engine state. -/
theorem handle_message_edit_state (omg : EditOutcome) (s : EngineState)
    (m : TelegramMessage) : (handle_message_edit omg s m).1 = s := by
  unfold handle_message_edit
  cases omg <;> rfl

/-- No engine path changes `flood_wait_seconds_total`: `processOne`. -/
theorem processOne_flood (omg : Nat → MsgOutcome) (s : EngineState)
    (m : TelegramMessage) :
    (processOne omg s m).1.stats.flood_wait_seconds_total
      = s.stats.flood_wait_seconds_total := by
  unfold processOne
  cases omg m.message_id <;> rfl

/-- No engine path changes `flood_wait_seconds_total`: the batch path. -/
theorem process_message_batch_flood (omg : Nat → MsgOutcome)
    (msgs : List TelegramMessage) :
    ∀ s : EngineState,
      (process_message_batch omg s msgs).1.stats.flood_wait_seconds_total
        = s.stats.flood_wait_seconds_total := by
  induction msgs with
  | nil => intro s; rfl
  | cons m rest ih =>
      intro s
      simp only [process_message_batch]
      rw [ih, processOne_flood]

/-- No engine path changes `flood_wait_seconds_total`: the new-message
handler. -/
theorem handle_new_message_flood (omg : NewMsgOutcome) (chat_id : Int)
    (now : Nat) (s : EngineState) (m : TelegramMessage) :
    (handle_new_message omg chat_id now s m).1.stats.flood_wait_seconds_total
      = s.stats.flood_wait_seconds_total := by
  unfold handle_new_message
  cases omg <;> rfl

/-- No engine path changes `flood_wait_seconds_total`: one backfill
iteration. -/
theorem backfillStep_flood (src : Nat → Nat → FetchOutcome)
    (omg : Nat → MsgOutcome) (chat_id : Int) (hwm_id batch_size now : Nat)
    (s : EngineState) (current_id : Nat) :
    (backfillStep src omg chat_id hwm_id batch_size now s
        current_id).1.stats.flood_wait_seconds_total
      = s.stats.flood_wait_seconds_total := by
  unfold backfillStep
  cases h : src (current_id - 1) (min (current_id + batch_size - 1) hwm_id) with
  | exn => simp only [h]
  | ok messages =>
      cases messages with
      | nil => simp only [h]
      | cons m rest =>
          simp only [h]
          exact process_message_batch_flood omg (m :: rest) s

/-- No engine path changes `flood_wait_seconds_total`: the backfill loop. -/
theorem backfillLoop_flood (src : Nat → Nat → FetchOutcome)
    (omg : Nat → MsgOutcome) (chat_id : Int) (hwm_id batch_size now : Nat)
    (fuel : Nat) :
    ∀ (s : EngineState) (current_id : Nat),
      (backfillLoop src omg chat_id hwm_id batch_size now fuel s
          current_id).state.stats.flood_wait_seconds_total
        = s.stats.flood_wait_seconds_total := by
  induction fuel with
  | zero => intro s current_id; rfl
  | succ fuel ih =>
      intro s current_id
      simp only [backfillLoop]
      by_cases h : current_id ≤ hwm_id
      · simp only [h, if_true]
        rw [ih, backfillStep_flood]
      · simp only [h, if_false]

/-- No engine path changes `flood_wait_seconds_total`: the whole backfill. -/
theorem perform_backfill_flood (src : Nat → Nat → FetchOutcome)
    (omg : Nat → MsgOutcome) (chat_id : Int) (hwm_id batch_size now fuel : Nat)
    (s : EngineState) :
    (perform_backfill src omg chat_id hwm_id batch_size now fuel
        s).state.stats.flood_wait_seconds_total
      = s.stats.flood_wait_seconds_total := by
  unfold perform_backfill
  cases s.checkpoint <;> dsimp only <;> split
  · rfl
  · exact backfillLoop_flood src omg chat_id hwm_id batch_size now fuel s _
  · rfl
  · exact backfillLoop_flood src omg chat_id hwm_id batch_size now fuel s _

/-- Python's `max(messages, key=...)` returns an element of the batch. -/
theorem maxByMessageId_mem (ms : List TelegramMessage) :
    ∀ m : TelegramMessage, maxByMessageId m ms ∈ m :: ms := by
  induction ms with
  | nil => intro m; simp [maxByMessageId]
  | cons x xs ih =>
      intro m
      simp only [maxByMessageId]
      rcases List.mem_cons.mp (ih (if x.message_id > m.message_id then x else m))
        with h | h
      · rw [h]
        by_cases hc : x.message_id > m.message_id <;> simp [hc]
      · simp [List.mem_cons, h]

/-- The id of Python's `max(messages, key=...)` is the maximal observed
`message_id` of the batch. -/
theorem maxByMessageId_id (ms : List TelegramMessage) :
    ∀ m : TelegramMessage, (maxByMessageId m ms).message_id = batchMaxId m ms := by
  induction ms with
  | nil => intro m; rfl
  | cons x xs ih =>
      intro m
      simp only [maxByMessageId, batchMaxId, List.map_cons, List.foldl_cons]
      rw [ih]
      unfold batchMaxId
      congr 1
      by_cases hc : x.message_id > m.message_id
      · simp [hc, Nat.max_eq_right (Nat.le_of_lt hc)]
      · simp [hc, Nat.max_eq_left (Nat.not_lt.mp hc)]

/-- Once `current_id` exceeds the high water mark, the loop exits at once
with the state untouched and no events. -/
theorem backfillLoop_done (src : Nat → Nat → FetchOutcome)
    (omg : Nat → MsgOutcome) (chat_id : Int) (hwm_id batch_size now : Nat)
    (fuel : Nat) (s : EngineState) (current_id : Nat) (h : hwm_id < current_id) :
    backfillLoop src omg chat_id hwm_id batch_size now fuel s current_id
      = { state := s, current_id := current_id, events := [],
          completed := true } := by
  have hn : ¬ current_id ≤ hwm_id := not_le.mpr h
  cases fuel with
  | zero => simp [backfillLoop, h]
  | succ n => simp [backfillLoop, hn]

/-- One unfolding of the loop while it is still behind the high water
mark. -/
theorem backfillLoop_succ (src : Nat → Nat → FetchOutcome)
    (omg : Nat → MsgOutcome) (chat_id : Int) (hwm_id batch_size now : Nat)
    (fuel : Nat) (s : EngineState) (current_id : Nat)
    (h : current_id ≤ hwm_id) :
    backfillLoop src omg chat_id hwm_id batch_size now (fuel + 1) s current_id
      = { backfillLoop src omg chat_id hwm_id batch_size now fuel
            (backfillStep src omg chat_id hwm_id batch_size now s
              current_id).1
            (backfillStep src omg chat_id hwm_id batch_size now s
              current_id).2.1 with
          events :=
            (backfillStep src omg chat_id hwm_id batch_size now s
              current_id).2.2
              ++ (backfillLoop src omg chat_id hwm_id batch_size now fuel
                    (backfillStep src omg chat_id hwm_id batch_size now s
                      current_id).1
                    (backfillStep src omg chat_id hwm_id batch_size now s
                      current_id).2.1).events } := by
  simp [backfillLoop, h]

/-- Evaluation of one backfill iteration on a non-empty fetched batch. -/
theorem backfillStep_ok_cons (src : Nat → Nat → FetchOutcome)
    (omg : Nat → MsgOutcome) (chat_id : Int) (hwm_id batch_size now : Nat)
    (s : EngineState) (current_id : Nat) (m : TelegramMessage)
    (rest : List TelegramMessage)
    (hfetch : src (current_id - 1) (min (current_id + batch_size - 1) hwm_id)
      = .ok (m :: rest)) :
    backfillStep src omg chat_id hwm_id batch_size now s current_id
      = ({ (process_message_batch omg s (m :: rest)).1 with
             checkpoint := some
               { chat_id := chat_id,
                 last_message_id := (maxByMessageId m rest).message_id,
                 last_ts_utc := (maxByMessageId m rest).ts_utc,
                 updated_at := now } },
         (maxByMessageId m rest).message_id + 1,
         .fetch (current_id - 1) (min (current_id + batch_size - 1) hwm_id)
           :: ((process_message_batch omg s (m :: rest)).2.1
                ++ [.updateCheckpointEv (maxByMessageId m rest).message_id])) := by
  unfold backfillStep
  simp only [hfetch]
  rfl

/-- Evaluation of one backfill iteration on an empty fetched batch. -/
theorem backfillStep_ok_nil (src : Nat → Nat → FetchOutcome)
    (omg : Nat → MsgOutcome) (chat_id : Int) (hwm_id batch_size now : Nat)
    (s : EngineState) (current_id : Nat)
    (hfetch : src (current_id - 1) (min (current_id + batch_size - 1) hwm_id)
      = .ok []) :
    backfillStep src omg chat_id hwm_id batch_size now s current_id
      = (s, min (current_id + batch_size - 1) hwm_id + 1,
         [.fetch (current_id - 1)
            (min (current_id + batch_size - 1) hwm_id)]) := by
  unfold backfillStep
  simp only [hfetch]

/-- `fetchCalls` distributes over concatenation. -/
theorem fetchCalls_append (a b : List Event) :
    fetchCalls (a ++ b) = fetchCalls a ++ fetchCalls b := by
  simp [fetchCalls]

/-- `analyzeIds` distributes over concatenation. -/
theorem analyzeIds_append (a b : List Event) :
    analyzeIds (a ++ b) = analyzeIds a ++ analyzeIds b := by
  simp [analyzeIds]

/-- Batch processing issues no fetches. -/
theorem fetchCalls_perMessage (omg : Nat → MsgOutcome)
    (msgs : List TelegramMessage) :
    fetchCalls (msgs.flatMap (perMessageEvents omg)) = [] := by
  induction msgs with
  | nil => rfl
  | cons m rest ih =>
      rw [List.flatMap_cons, fetchCalls_append, ih]
      unfold perMessageEvents
      cases omg m.message_id <;> rfl

/-- With an all-successful oracle, batch processing analyzes each message
of the batch exactly once, in order. -/
theorem analyzeIds_ok_flat (msgs : List TelegramMessage) :
    analyzeIds (msgs.flatMap (perMessageEvents (fun _ => .ok)))
      = msgs.map (·.message_id) := by
  induction msgs with
  | nil => rfl
  | cons m rest ih =>
      rw [List.flatMap_cons, analyzeIds_append, ih]
      rfl

/-- A fetch event heads the fetch-call projection. -/
theorem fetchCalls_cons_fetch (a b : Nat) (l : List Event) :
    fetchCalls (.fetch a b :: l) = (a, b) :: fetchCalls l := rfl

/-- Checkpoint writes do not appear among fetch calls. -/
theorem fetchCalls_cons_upd (i : Nat) (l : List Event) :
    fetchCalls (.updateCheckpointEv i :: l) = fetchCalls l := rfl

/-- No events, no fetch calls. -/
theorem fetchCalls_nil : fetchCalls [] = [] := rfl

/-- Fetch events do not appear among analyzer invocations. -/
theorem analyzeIds_cons_fetch (a b : Nat) (l : List Event) :
    analyzeIds (.fetch a b :: l) = analyzeIds l := rfl

/-- Checkpoint writes do not appear among analyzer invocations. -/
theorem analyzeIds_cons_upd (i : Nat) (l : List Event) :
    analyzeIds (.updateCheckpointEv i :: l) = analyzeIds l := rfl

/-- No events, no analyzer invocations. -/
theorem analyzeIds_nil : analyzeIds [] = [] := rfl

/-- One unfolding of the loop, stated for any non-zero fuel. -/
theorem backfillLoop_unfold (src : Nat → Nat → FetchOutcome)
    (omg : Nat → MsgOutcome) (chat_id : Int) (hwm_id batch_size now : Nat)
    (fuel : Nat) (s : EngineState) (current_id : Nat)
    (h : current_id ≤ hwm_id) (hf : 1 ≤ fuel) :
    backfillLoop src omg chat_id hwm_id batch_size now fuel s current_id
      = { backfillLoop src omg chat_id hwm_id batch_size now (fuel - 1)
            (backfillStep src omg chat_id hwm_id batch_size now s
              current_id).1
            (backfillStep src omg chat_id hwm_id batch_size now s
              current_id).2.1 with
          events :=
            (backfillStep src omg chat_id hwm_id batch_size now s
              current_id).2.2
              ++ (backfillLoop src omg chat_id hwm_id batch_size now
                    (fuel - 1)
                    (backfillStep src omg chat_id hwm_id batch_size now s
                      current_id).1
                    (backfillStep src omg chat_id hwm_id batch_size now s
                      current_id).2.1).events } := by
  cases fuel with
  | zero => omega
  | succ k =>
      rw [backfillLoop_succ src omg chat_id hwm_id batch_size now k s
        current_id h]
      simp

/-- When no message of the stream predates `start_date`, the range fetch of
tg_client.py keeps exactly the messages dated at most `end_date`. -/
theorem fetch_messages_in_range_filter (start_date end_date : Nat)
    (stream : List TelegramMessage)
    (hstart : ∀ m ∈ stream, start_date ≤ m.ts_utc) :
    fetch_messages_in_range start_date end_date stream
      = stream.filter (fun m => decide (m.ts_utc ≤ end_date)) := by
  induction stream with
  | nil => rfl
  | cons m rest ih =>
      have h1 : ¬ m.ts_utc < start_date :=
        not_lt.mpr (hstart m (List.mem_cons_self m rest))
      have ih2 := ih (fun x hx => hstart x (List.mem_cons_of_mem m hx))
      unfold fetch_messages_in_range
      rw [if_neg h1]
      by_cases h2 : m.ts_utc ≤ end_date
      · rw [if_pos h2, ih2]
        simp [List.filter_cons, h2]
      · rw [if_neg h2, ih2]
        simp [List.filter_cons, h2]

/-! ## Claim theorems -/

/-- C1, counterexample: starting from a stored checkpoint with
`last_message_id = 10`, one successful run of the new-message handler on a
live message with id `5` leaves the stored checkpoint at `5` — the handler
regresses the checkpoint, refuting both the non-decreasing invariant and the
"only if greater" guard. -/
theorem checkpoint_regression_cex :
    stateTen.checkpoint.map (·.last_message_id) = some 10
    ∧ (handle_new_message .ok 1 12 stateTen
        msgFive).1.checkpoint.map (·.last_message_id) = some 5
    ∧ (5 : Nat) < 10 := by
  exact ⟨rfl, rfl, by decide⟩

/-- C1, amended: the new-message handler advances the stored checkpoint to
the received message's id *unconditionally* — `update_checkpoint` overwrites
the stored row and the handler performs no comparison with the current
checkpoint — so the stored `last_message_id` simply becomes the received id,
whether or not it is greater. -/
theorem handle_new_message_sets_checkpoint (chat_id : Int) (now : Nat)
    (s : EngineState) (m : TelegramMessage) :
    (handle_new_message .ok chat_id now s m).1.checkpoint
      = some { chat_id := chat_id, last_message_id := m.message_id,
               last_ts_utc := m.ts_utc, updated_at := now } := rfl

/-- C2: on a first rate-limit hit with `wait = 5` the wrapper sleeps the
rate-limit delay plus the suggested 5 seconds, retries the same range and
returns the batch (no failure surfaced) — but no engine path ever adds the
wait to `flood_wait_seconds_total`: the counter is invariant across the
new-message handler and the whole backfill, so it is not increased by ≥ 5 as
the spec asks. -/
theorem flood_wait_not_accumulated :
    (fetch_messages_batch 1 [.floodWait 5, .batch floodDemoBatch]
        = (some floodDemoBatch, 7)
      ∧ 5 ≤ 7)
    ∧ (∀ (omg : NewMsgOutcome) (chat_id : Int) (now : Nat) (s : EngineState)
          (m : TelegramMessage),
        (handle_new_message omg chat_id now s
            m).1.stats.flood_wait_seconds_total
          = s.stats.flood_wait_seconds_total)
    ∧ (∀ (src : Nat → Nat → FetchOutcome) (omg : Nat → MsgOutcome)
          (chat_id : Int) (hwm_id batch_size now fuel : Nat)
          (s : EngineState),
        (perform_backfill src omg chat_id hwm_id batch_size now fuel
            s).state.stats.flood_wait_seconds_total
          = s.stats.flood_wait_seconds_total) :=
  ⟨⟨rfl, by omega⟩, handle_new_message_flood, perform_backfill_flood⟩

/-- C4: a backfill iteration whose fetch returns a non-empty batch persists
a checkpoint whose `last_message_id` is the maximal `message_id` actually
observed in the batch, and continues from that maximum plus one. -/
theorem nonempty_batch_advances (src : Nat → Nat → FetchOutcome)
    (omg : Nat → MsgOutcome) (chat_id : Int) (hwm_id batch_size now : Nat)
    (s : EngineState) (current_id : Nat) (m : TelegramMessage)
    (rest : List TelegramMessage)
    (hfetch : src (current_id - 1) (min (current_id + batch_size - 1) hwm_id)
      = .ok (m :: rest)) :
    (backfillStep src omg chat_id hwm_id batch_size now s
        current_id).1.checkpoint.map (·.last_message_id)
      = some (batchMaxId m rest)
    ∧ (backfillStep src omg chat_id hwm_id batch_size now s
        current_id).2.1 = batchMaxId m rest + 1 := by
  rw [backfillStep_ok_cons src omg chat_id hwm_id batch_size now s current_id
    m rest hfetch]
  refine ⟨?_, ?_⟩ <;> simp [maxByMessageId_id]

/-- C4, witness: with a fetch returning the batch `[id 51, id 60]`, the
iteration stores checkpoint `60` and continues from `61`. -/
theorem nonempty_batch_advances_witness :
    (backfillStep srcPair omgOk 1 100 10 0 stateZero
        51).1.checkpoint.map (·.last_message_id) = some 60
    ∧ (backfillStep srcPair omgOk 1 100 10 0 stateZero 51).2.1 = 61 :=
  nonempty_batch_advances srcPair omgOk 1 100 10 0 stateZero 51 msg51W
    [msg60W] rfl

/-- C6: a backfill iteration whose fetch returns an empty batch leaves the
engine state (checkpoint included) untouched, advances `current_id` to
`batch_max + 1`, and records nothing but the fetch — no checkpoint write and
no error handling. -/
theorem empty_batch_advances (src : Nat → Nat → FetchOutcome)
    (omg : Nat → MsgOutcome) (chat_id : Int) (hwm_id batch_size now : Nat)
    (s : EngineState) (current_id : Nat)
    (hfetch : src (current_id - 1) (min (current_id + batch_size - 1) hwm_id)
      = .ok []) :
    backfillStep src omg chat_id hwm_id batch_size now s current_id
      = (s, min (current_id + batch_size - 1) hwm_id + 1,
         [.fetch (current_id - 1)
            (min (current_id + batch_size - 1) hwm_id)]) :=
  backfillStep_ok_nil src omg chat_id hwm_id batch_size now s current_id
    hfetch

/-- C6, witness: an empty batch for the range `(50, 60]` advances
`current_id` from 51 to 61 with the state unchanged. -/
theorem empty_batch_advances_witness :
    backfillStep srcEmpty omgOk 1 100 10 0 stateZero 51
      = (stateZero, 61, [.fetch 50 60]) :=
  empty_batch_advances srcEmpty omgOk 1 100 10 0 stateZero 51 rfl

/-- C7: when the stored checkpoint already equals the high water mark, the
backfill returns immediately: the state (checkpoint included) is unchanged
and the event trace is empty — zero fetch calls. -/
theorem noop_when_caught_up (src : Nat → Nat → FetchOutcome)
    (omg : Nat → MsgOutcome) (chat_id : Int) (hwm_id batch_size now fuel : Nat)
    (s : EngineState) (cp : IngestCheckpoint)
    (hcp : s.checkpoint = some cp) (h : hwm_id = cp.last_message_id) :
    perform_backfill src omg chat_id hwm_id batch_size now fuel s
      = { state := s, current_id := cp.last_message_id + 1, events := [],
          completed := true } := by
  unfold perform_backfill
  rw [hcp]
  simp [h]

/-- C7, witness: checkpoint `= 100` and high water mark `= 100` yield no
fetches and an unchanged state. -/
theorem noop_when_caught_up_witness :
    perform_backfill srcEmpty omgOk 1 100 10 0 3 stateHundred
      = { state := stateHundred, current_id := 101, events := [],
          completed := true } :=
  noop_when_caught_up srcEmpty omgOk 1 100 10 0 3 stateHundred cpHundred rfl
    rfl

/-- C8: in `_process_message_batch` every message's trace is a function of
that message's own outcome alone — `perMessageEvents` — concatenated in batch
order, so one message's store or analyze failure never affects whether its
siblings are stored and analyzed, and the batch always runs to completion,
counting exactly the fully successful messages. -/
theorem per_message_failure_isolation (omg : Nat → MsgOutcome)
    (s : EngineState) (msgs : List TelegramMessage) :
    (process_message_batch omg s msgs).2.1
        = msgs.flatMap (perMessageEvents omg)
    ∧ (process_message_batch omg s msgs).2.2
        = msgs.countP (fun m => decide (omg m.message_id = MsgOutcome.ok)) :=
  ⟨process_message_batch_events omg msgs s,
   process_message_batch_count omg msgs s⟩

/-- C9: starting from stats satisfying `analyzed ≤ ingested`, any sequence
of batch-processing, new-message and edit operations preserves
`ingested_messages_total ≥ analyzed_messages_total`: each path bumps the
ingested counter at or before the analyzed one, and failures skip the
analyzed bump first. -/
theorem ingested_ge_analyzed (ops : List EngineOp) (s : EngineState)
    (h : s.stats.analyzed_messages_total ≤ s.stats.ingested_messages_total) :
    (runOps s ops).stats.analyzed_messages_total
      ≤ (runOps s ops).stats.ingested_messages_total := by
  induction ops generalizing s with
  | nil => exact h
  | cons op rest ih =>
      cases op with
      | batchOp omg messages =>
          exact ih _ (process_message_batch_stats_le omg messages s h)
      | newMessageOp omg chat_id now m =>
          exact ih _ (handle_new_message_stats_le omg chat_id now s m h)
      | editOp omg m =>
          refine ih _ ?_
          simpa [runOp, handle_message_edit_state] using h

/-- C9, witness: a batch whose only message fails analysis followed by a
successful live message keep `analyzed ≤ ingested` (here 1 ≤ 2). -/
theorem ingested_ge_analyzed_witness :
    (runOps stateZero opsDemo).stats.analyzed_messages_total
      ≤ (runOps stateZero opsDemo).stats.ingested_messages_total :=
  ingested_ge_analyzed opsDemo stateZero (by decide)

/-- C5, counterexample: a manual re-scan over `[50, 100)` processes a
message whose timestamp is exactly `100` — `fetch_messages_in_range` keeps
messages with `msg_date <= end_date`, so the range is end-inclusive, not the
half-open `[start, end)` the claim states. -/
theorem manual_rescan_halfopen_cex :
    (manual_rescan_range omgOk [msgAtEnd] 50 100 stateZero).2.1
        = [.upsertMessage 7, .analyze 7, .upsertAnalysis 7]
    ∧ ¬ (msgAtEnd.ts_utc < 100) ∧ 50 ≤ msgAtEnd.ts_utc :=
  ⟨rfl, by decide, by decide⟩

/-- C5, amended: on a client stream whose messages all carry timestamps
`≥ start`, `manual_rescan_range(start, end)` reprocesses — through the same
per-message upsert-and-analyze path — exactly the messages with timestamp in
the *closed* range `[start, end]`, and the stored checkpoint is unchanged. -/
theorem manual_rescan_closed_range (omg : Nat → MsgOutcome)
    (stream : List TelegramMessage) (start_date end_date : Nat)
    (s : EngineState)
    (hstart : ∀ m ∈ stream, start_date ≤ m.ts_utc) :
    (manual_rescan_range omg stream start_date end_date s).1.checkpoint
        = s.checkpoint
    ∧ (manual_rescan_range omg stream start_date end_date s).2.1
        = (stream.filter (fun m => decide (m.ts_utc ≤ end_date))).flatMap
            (perMessageEvents omg) := by
  constructor
  · unfold manual_rescan_range
    exact process_message_batch_checkpoint omg _ s
  · unfold manual_rescan_range
    rw [fetch_messages_in_range_filter start_date end_date stream hstart,
      process_message_batch_events]

/-- C5, witness: on the stream `[ts 60, ts 200]` a re-scan over `[50, 100]`
reprocesses only the first message and leaves the checkpoint alone. -/
theorem manual_rescan_closed_range_witness :
    (manual_rescan_range omgOk [msgIn, msgLate] 50 100 stateZero).1.checkpoint
        = stateZero.checkpoint
    ∧ (manual_rescan_range omgOk [msgIn, msgLate] 50 100 stateZero).2.1
        = ([msgIn, msgLate].filter (fun m => decide (m.ts_utc ≤ 100))).flatMap
            (perMessageEvents omgOk) :=
  manual_rescan_closed_range omgOk [msgIn, msgLate] 50 100 stateZero
    (by decide)

/-- C10: if every fetch returns only message ids inside the requested range
`(current_id - 1, batch_max]` and the batch size is positive, then every
backfill iteration — empty batch, fetch error, and non-empty batch alike —
strictly increases `current_id`, and consequently the loop reaches its
normal exit `current_id > hwm` within `hwm + 1 - current_id` iterations, for
every finite high water mark. -/
theorem backfill_progress_and_termination (src : Nat → Nat → FetchOutcome)
    (omg : Nat → MsgOutcome) (chat_id : Int) (hwm_id batch_size now : Nat)
    (hin : ∀ a b messages, src a b = .ok messages →
      ∀ m ∈ messages, a < m.message_id ∧ m.message_id ≤ b)
    (hbs : 1 ≤ batch_size) :
    (∀ (s : EngineState) (current_id : Nat), current_id ≤ hwm_id →
        current_id
          < (backfillStep src omg chat_id hwm_id batch_size now s
              current_id).2.1)
    ∧ (∀ (fuel : Nat) (s : EngineState) (current_id : Nat),
        hwm_id + 1 - current_id ≤ fuel →
        (backfillLoop src omg chat_id hwm_id batch_size now fuel s
            current_id).completed = true) := by
  have hstep : ∀ (s : EngineState) (current_id : Nat),
      current_id ≤ hwm_id →
      current_id
        < (backfillStep src omg chat_id hwm_id batch_size now s
            current_id).2.1 := by
    intro s cid hc
    have hmin : cid ≤ min (cid + batch_size - 1) hwm_id :=
      le_min (by omega) hc
    unfold backfillStep
    cases h : src (cid - 1) (min (cid + batch_size - 1) hwm_id) with
    | exn =>
        simp only [h]
        exact Nat.lt_succ_of_le hmin
    | ok messages =>
        cases messages with
        | nil =>
            simp only [h]
            exact Nat.lt_succ_of_le hmin
        | cons m rest =>
            simp only [h]
            have hmem := maxByMessageId_mem rest m
            have hid := hin _ _ _ h _ hmem
            exact Nat.lt_succ_of_le (by omega)
  refine ⟨hstep, ?_⟩
  intro fuel
  induction fuel with
  | zero =>
      intro s cid hf
      simp only [backfillLoop, decide_eq_true_eq]
      omega
  | succ k ih =>
      intro s cid hf
      by_cases hc : cid ≤ hwm_id
      · rw [backfillLoop_succ src omg chat_id hwm_id batch_size now k s cid
          hc]
        have hlt := hstep s cid hc
        exact ih _ _ (by omega)
      · rw [backfillLoop_done src omg chat_id hwm_id batch_size now (k + 1) s
          cid (not_le.mp hc)]

/-- C10, witness: against an always-empty in-range source with batch size 1
and high water mark 5, the loop run with fuel 5 from `current_id = 1`
reaches its normal exit. -/
theorem backfill_progress_and_termination_witness :
    (backfillLoop srcEmpty omgOk 1 5 1 0 5 stateZero 1).completed = true :=
  (backfill_progress_and_termination srcEmpty omgOk 1 5 1 0
      (by
        intro a b messages hmsg m hm
        simp only [srcEmpty, FetchOutcome.ok.injEq] at hmsg
        subst hmsg
        simp at hm)
      (by decide)).2 5 stateZero 1 (by decide)

/-- C3: from checkpoint 50 towards high water mark 237 with batch size 100,
against a source answering `(50,150]` with a non-empty batch of maximal id
150 and `(150,237]` with a non-empty batch of maximal id 237 (interior gaps
allowed, ids distinct), the backfill issues exactly the fetches `(50,150]`
and `(150,237]` (the second clamped to the HWM), finishes with stored
checkpoint 237, and invokes Analyze exactly once per message id the source
returned. -/
theorem backfill_completeness_50_237 (src : Nat → Nat → FetchOutcome)
    (s : EngineState) (chat_id : Int) (now fuel : Nat)
    (b1 b2 : List TelegramMessage) (cp0 : IngestCheckpoint)
    (hcp : s.checkpoint = some cp0) (h50 : cp0.last_message_id = 50)
    (h1 : src 50 150 = .ok b1) (h2 : src 150 237 = .ok b2)
    (hb1 : b1 ≠ []) (hb2 : b2 ≠ [])
    (hmax1 : maxIdOf b1 = 150) (hmax2 : maxIdOf b2 = 237)
    (hnd : ((b1 ++ b2).map (·.message_id)).Nodup)
    (hfuel : 2 ≤ fuel) :
    fetchCalls (perform_backfill src (fun _ => .ok) chat_id 237 100 now fuel
        s).events = [(50, 150), (150, 237)]
    ∧ (perform_backfill src (fun _ => .ok) chat_id 237 100 now fuel
        s).state.checkpoint.map (·.last_message_id) = some 237
    ∧ analyzeIds (perform_backfill src (fun _ => .ok) chat_id 237 100 now
        fuel s).events = (b1 ++ b2).map (·.message_id)
    ∧ (analyzeIds (perform_backfill src (fun _ => .ok) chat_id 237 100 now
        fuel s).events).Nodup
    ∧ (perform_backfill src (fun _ => .ok) chat_id 237 100 now fuel
        s).completed = true := by
  obtain ⟨m1, r1, rfl⟩ := List.exists_cons_of_ne_nil hb1
  obtain ⟨m2, r2, rfl⟩ := List.exists_cons_of_ne_nil hb2
  simp only [maxIdOf] at hmax1 hmax2
  have e1 : src (51 - 1) (min (51 + 100 - 1) 237) = .ok (m1 :: r1) := by
    rw [show (51 : Nat) - 1 = 50 from by norm_num,
      show min ((51 : Nat) + 100 - 1) 237 = 150 from by decide]
    exact h1
  have e2 : src (151 - 1) (min (151 + 100 - 1) 237) = .ok (m2 :: r2) := by
    rw [show (151 : Nat) - 1 = 150 from by norm_num,
      show min ((151 : Nat) + 100 - 1) 237 = 237 from by decide]
    exact h2
  have hpb : perform_backfill src (fun _ => .ok) chat_id 237 100 now fuel s
      = backfillLoop src (fun _ => .ok) chat_id 237 100 now fuel s 51 := by
    unfold perform_backfill
    rw [hcp]
    simp [h50]
  rw [hpb]
  rw [backfillLoop_unfold src (fun _ => MsgOutcome.ok) chat_id 237 100 now
    fuel s 51 (by norm_num) (by omega)]
  rw [backfillStep_ok_cons src (fun _ => MsgOutcome.ok) chat_id 237 100 now
    s 51 m1 r1 e1]
  dsimp only
  rw [hmax1]
  rw [show (150 : Nat) + 1 = 151 from by norm_num]
  rw [show (51 : Nat) - 1 = 50 from by norm_num]
  rw [show min ((51 : Nat) + 100 - 1) 237 = 150 from by decide]
  rw [backfillLoop_unfold src (fun _ => MsgOutcome.ok) chat_id 237 100 now
    (fuel - 1) _ 151 (by norm_num) (by omega)]
  rw [backfillStep_ok_cons src (fun _ => MsgOutcome.ok) chat_id 237 100 now
    _ 151 m2 r2 e2]
  dsimp only
  rw [hmax2]
  rw [show (237 : Nat) + 1 = 238 from by norm_num]
  rw [show (151 : Nat) - 1 = 150 from by norm_num]
  rw [show min ((151 : Nat) + 100 - 1) 237 = 237 from by decide]
  rw [backfillLoop_done src (fun _ => MsgOutcome.ok) chat_id 237 100 now
    (fuel - 1 - 1) _ 238 (by norm_num)]
  dsimp only
  refine ⟨?_, ?_, ?_, ?_, ?_⟩
  · simp only [process_message_batch_events, List.cons_append,
      List.nil_append, List.append_nil, List.append_assoc,
      fetchCalls_cons_fetch, fetchCalls_append, fetchCalls_perMessage,
      fetchCalls_cons_upd, fetchCalls_nil]
  · simp
  · simp only [process_message_batch_events, List.cons_append,
      List.nil_append, List.append_nil, List.append_assoc,
      analyzeIds_cons_fetch, analyzeIds_append, analyzeIds_ok_flat,
      analyzeIds_cons_upd, analyzeIds_nil, List.map_append]
    simp [List.map_append]
  · simp only [process_message_batch_events, List.cons_append,
      List.nil_append, List.append_nil, List.append_assoc,
      analyzeIds_cons_fetch, analyzeIds_append, analyzeIds_ok_flat,
      analyzeIds_cons_upd, analyzeIds_nil]
    simpa only [List.map_append] using hnd
  · rfl

/-- C3, witness: the scenario run against the concrete source `srcW`
(batches `[51, 150]` and `[200, 237]`, with interior gaps). -/
theorem backfill_completeness_50_237_witness :
    fetchCalls (perform_backfill srcW (fun _ => .ok) 1 237 100 0 2
        stateFifty).events = [(50, 150), (150, 237)]
    ∧ (perform_backfill srcW (fun _ => .ok) 1 237 100 0 2
        stateFifty).state.checkpoint.map (·.last_message_id) = some 237
    ∧ analyzeIds (perform_backfill srcW (fun _ => .ok) 1 237 100 0 2
        stateFifty).events = (b1W ++ b2W).map (·.message_id)
    ∧ (analyzeIds (perform_backfill srcW (fun _ => .ok) 1 237 100 0 2
        stateFifty).events).Nodup
    ∧ (perform_backfill srcW (fun _ => .ok) 1 237 100 0 2
        stateFifty).completed = true :=
  backfill_completeness_50_237 srcW stateFifty 1 0 2 b1W b2W cpFifty rfl rfl
    rfl rfl (by decide) (by decide) rfl rfl (by decide) (by decide)

end TgIngest
